import Mathlib

/-!
Shallow embedding of `proxy.go` from KineticCafe/rest-s3-proxy.

The program is an HTTP gateway in front of a single S3 bucket.  We embed the
pure request-handling logic of each Go function as a Lean function:

* `handleHTTPException` mirrors `handleHTTPException` (proxy.go:198-219);
* `serveHealth` mirrors `serveHealth` (proxy.go:129-149);
* `serveGetS3File`, `servePutS3File`, `serveDeleteS3File` mirror the object
  handlers (proxy.go:152-195);
* `serveS3File` mirrors the router (proxy.go:94-126).

External effects are made explicit:

* the S3 backend is the environment; each handler receives the outcome of its
  S3 call (`Except GoErr String` / `Option GoErr`).  For end-to-end claims the
  backend is instantiated with an ideal key/value map (`Store`), the interface
  contract of the external object store (get/put/delete by key, `NoSuchKey`
  on an absent key);
* the HTTP response writer is the returned `Response` value (status, the
  `Location` header when set, and the written body; Go's `http.Error`
  terminates the message with a newline, a transport detail elided here);
* wall-clock time (`time.Now().Unix()`, an `int64`) and the process-wide
  `lastHealthCheckTime` global are passed and returned explicitly.  Realistic
  Unix timestamps are far from the `int64` boundaries, so plain `Int`
  arithmetic coincides with Go's;
* object bodies are opaque byte strings, modelled as `String`.
-/

/-- A Go `error` value as the handlers can observe it: either an
`awserr.Error` (with `Code()`, `Message()` and optional `OrigErr()`), or any
other (generic) Go error, observed through `Error()`. -/
inductive GoErr where
  | awsError (code message : String) (origErr : Option String)
  | goError (message : String)
deriving DecidableEq, Repr

/-- What a handler writes to the `http.ResponseWriter`: the status code, the
`Location` header if the handler sets one, and the body.  A handler that
only writes a body gets Go's implicit status 200. -/
structure Response where
  status : Nat
  location : Option String
  body : String
deriving DecidableEq, Repr

/-- The ideal external object store: one bucket, a map from keys to optional
bodies (spec §4.3: get/put/delete of a named object within one bucket). -/
def Store : Type := String → Option String

/-- Operation `GetObject` against the ideal store: the body when the key is present,
the provider's `NoSuchKey` failure when absent. -/
def s3GetObject (st : Store) (key : String) : Except GoErr String :=
  match st key with
  | some body => .ok body
  | none => .error (.awsError "NoSuchKey" "The specified key does not exist." none)

/-- Operation `PutObject` against the ideal store: creates or overwrites the key. -/
def s3PutObject (st : Store) (key body : String) : Store :=
  fun k => if k = key then some body else st k

/-- Operation `DeleteObject` against the ideal store: removes the key (idempotent). -/
def s3DeleteObject (st : Store) (key : String) : Store :=
  fun k => if k = key then none else st k

/-- The error component of an S3 call outcome (`err` in the Go code). -/
def errOf (r : Except GoErr String) : Option GoErr :=
  match r with
  | .error e => some e
  | .ok _ => none

/-- The success payload of an S3 call outcome (`resp.Body` in the Go code;
only consulted after `err` was checked to be `nil`). -/
def bodyOf (r : Except GoErr String) : String :=
  match r with
  | .error _ => ""
  | .ok b => b

/-- Function `handleHTTPException` (proxy.go:198-219).  Given the error of the
preceding operation it writes the translated failure to the response writer
and returns the error for the caller's `!= nil` test: `some r` means the
error was non-nil and `r` was written, `none` means no error and nothing
written. -/
def handleHTTPException (path : String) (err : Option GoErr) : Option Response :=
  match err with
  | none => none
  | some (.awsError code message origErr) =>
      if code = "NoSuchKey" then
        some ⟨404, none, "Path '" ++ path ++ "' not found: " ++ message⟩
      else
        let cause := match origErr with
          | some o => " (Cause: " ++ o ++ ")"
          | none => ""
        some ⟨500, none, "An internal error occurred: " ++ code ++ " = " ++ message ++ cause⟩
  | some (.goError message) =>
      some ⟨500, none, "An internal error occurred: " ++ message⟩

/-- Outcome of one `serveHealth` call: the response written, the value of the
global `lastHealthCheckTime` afterwards, and whether a live store check
(`s3Session.GetObject` on the health file) was performed. -/
structure HealthOutcome where
  response : Response
  lastHealthCheckTime : Int
  liveCheck : Bool
deriving Repr

/-- Function `serveHealth` (proxy.go:129-149).  `getObject` is the S3 backend's
response to a `GetObject` call; `currentTime` is `time.Now().Unix()`;
`lastHealthCheckTime` is the global's value when the handler reads it. -/
def serveHealth (healthCheckCacheInterval : Int) (healthFile : String)
    (getObject : String → Except GoErr String)
    (currentTime lastHealthCheckTime : Int) : HealthOutcome :=
  if currentTime - lastHealthCheckTime > healthCheckCacheInterval then
    match handleHTTPException healthFile (errOf (getObject healthFile)) with
    | some r => ⟨r, lastHealthCheckTime, true⟩
    | none => ⟨⟨200, none, "OK"⟩, currentTime, true⟩
  else
    ⟨⟨200, none, "OK"⟩, lastHealthCheckTime, false⟩

/-- Function `main` resets the health-check timestamp to zero at startup
(proxy.go:232-233: `lastHealthCheckTime = 0`). -/
def initialLastHealthCheckTime : Int := 0

/-- Function `serveGetS3File` (proxy.go:152-162): on error the translated failure,
otherwise the object body with the implicit status 200. -/
def serveGetS3File (getObject : String → Except GoErr String)
    (filePath : String) : Response :=
  let resp := getObject filePath
  match handleHTTPException filePath (errOf resp) with
  | some r => r
  | none => ⟨200, none, bodyOf resp⟩

/-- Outcome of a state-changing object handler: the response, the store
afterwards, and how many store mutation calls were issued. -/
structure MutOutcome where
  response : Response
  store : Store
  storeCalls : Nat

/-- Function `servePutS3File` (proxy.go:165-182).  `readAllRes` is the outcome of
`ioutil.ReadAll(r.Body)`; `putErr` is the error the backend returns for the
`PutObject` call (`none` against the ideal store).  The body is read in full
first; only if that succeeds is `PutObject` issued, and on success the
handler responds via `http.Redirect(w, r, "/"+filePath, http.StatusCreated)`
— status 201 with a `Location` header and (for a PUT request) no body. -/
def servePutS3File (st : Store) (putErr : Option GoErr) (filePath : String)
    (readAllRes : Except GoErr String) : MutOutcome :=
  match handleHTTPException filePath (errOf readAllRes) with
  | some r => ⟨r, st, 0⟩
  | none =>
    let st' := if putErr.isNone then s3PutObject st filePath (bodyOf readAllRes) else st
    match handleHTTPException filePath putErr with
    | some r => ⟨r, st', 1⟩
    | none => ⟨⟨201, some ("/" ++ filePath), ""⟩, st', 1⟩

/-- Function `serveDeleteS3File` (proxy.go:185-195).  `deleteErr` is the error the
backend returns for the `DeleteObject` call (`none` against the ideal
store); on success the handler writes `http.StatusNoContent`. -/
def serveDeleteS3File (st : Store) (deleteErr : Option GoErr)
    (filePath : String) : MutOutcome :=
  let st' := if deleteErr.isNone then s3DeleteObject st filePath else st
  match handleHTTPException filePath deleteErr with
  | some r => ⟨r, st, 1⟩
  | none => ⟨⟨204, none, ""⟩, st', 1⟩

/-- The process-wide mutable state the router threads through a request:
the bucket contents (held remotely) and the `lastHealthCheckTime` global. -/
structure ProxyState where
  store : Store
  lastHealthCheckTime : Int

/-- Outcome of one routed request. -/
structure ReqOutcome where
  response : Response
  state : ProxyState
  storeCalls : Nat

/-- Function `serveS3File` (proxy.go:94-126), the single route handler, against the
ideal store.  `method` is `r.Method`, `urlPath` is `r.URL.Path` (starts with
the "/" the handler strips via `[1:]`), `readAllRes` the request body read
outcome, `currentTime` the probe time. -/
def serveS3File (healthCheckCacheInterval : Int) (healthFile : String)
    (method urlPath : String) (readAllRes : Except GoErr String)
    (currentTime : Int) (s : ProxyState) : ReqOutcome :=
  let path := urlPath.drop 1
  if path = "" then
    ⟨⟨400, none, "Path must be provided"⟩, s, 0⟩
  else if path = "healthz" then
    if method = "GET" then
      let h := serveHealth healthCheckCacheInterval healthFile
        (s3GetObject s.store) currentTime s.lastHealthCheckTime
      ⟨h.response, ⟨s.store, h.lastHealthCheckTime⟩, if h.liveCheck then 1 else 0⟩
    else
      ⟨⟨405, none, "/healthz is restricted to GET requests"⟩, s, 0⟩
  else
    if method = "GET" then
      ⟨serveGetS3File (s3GetObject s.store) path, s, 1⟩
    else if method = "PUT" then
      let o := servePutS3File s.store none path readAllRes
      ⟨o.response, ⟨o.store, s.lastHealthCheckTime⟩, o.storeCalls⟩
    else if method = "DELETE" then
      let o := serveDeleteS3File s.store none path
      ⟨o.response, ⟨o.store, s.lastHealthCheckTime⟩, o.storeCalls⟩
    else
      ⟨⟨405, none, "Method " ++ method ++ " not supported"⟩, s, 0⟩

/-- The response body written on health success. -/
def okResponse : Response := ⟨200, none, "OK"⟩

/-! ### Helper lemmas -/

/-- Function `handleHTTPException` writes a response exactly when the error is non-nil. -/
theorem handleHTTPException_none (path : String) :
    handleHTTPException path none = none := rfl

/-- On a non-nil error, `handleHTTPException` always writes some response. -/
theorem handleHTTPException_isSome (path : String) (e : GoErr) :
    (handleHTTPException path (some e)).isSome := by
  cases e with
  | awsError code message origErr =>
      by_cases hc : code = "NoSuchKey" <;> simp [handleHTTPException, hc]
  | goError message => simp [handleHTTPException]

/-- No response written by `handleHTTPException` has body `"OK"`. -/
theorem handleHTTPException_body_ne_OK (path : String) (e : GoErr) (r : Response)
    (hr : handleHTTPException path (some e) = some r) : r.body ≠ "OK" := by
  have hOKlen : ("OK").length = 2 := by decide
  cases e with
  | awsError code message origErr =>
      by_cases hc : code = "NoSuchKey"
      · simp only [handleHTTPException] at hr
        rw [if_pos hc] at hr
        simp only [Option.some.injEq] at hr
        subst hr
        intro hOK
        have hlen := congrArg String.length hOK
        simp only [String.length_append, hOKlen] at hlen
        have h1 : ("Path '").length = 6 := by decide
        have h2 : ("' not found: ").length = 13 := by decide
        omega
      · cases origErr with
        | none =>
            simp only [handleHTTPException] at hr
            rw [if_neg hc] at hr
            simp only [Option.some.injEq] at hr
            subst hr
            intro hOK
            have hlen := congrArg String.length hOK
            simp only [String.length_append, hOKlen] at hlen
            have h1 : ("An internal error occurred: ").length = 28 := by decide
            have h2 : (" = ").length = 3 := by decide
            have h3 : ("").length = 0 := by decide
            omega
        | some o =>
            simp only [handleHTTPException] at hr
            rw [if_neg hc] at hr
            simp only [Option.some.injEq] at hr
            subst hr
            intro hOK
            have hlen := congrArg String.length hOK
            simp only [String.length_append, hOKlen] at hlen
            have h1 : ("An internal error occurred: ").length = 28 := by decide
            have h2 : (" = ").length = 3 := by decide
            have h3 : (" (Cause: ").length = 9 := by decide
            have h4 : (")").length = 1 := by decide
            omega
  | goError message =>
      simp only [handleHTTPException, Option.some.injEq] at hr
      subst hr
      intro hOK
      have hlen := congrArg String.length hOK
      simp only [String.length_append, hOKlen] at hlen
      have h1 : ("An internal error occurred: ").length = 28 := by decide
      omega

/-- The health handler issues a live check exactly when the cache window has
elapsed, whatever the check's outcome. -/
theorem serveHealth_liveCheck_eq (i : Int) (hf : String)
    (g : String → Except GoErr String) (t l : Int) :
    (serveHealth i hf g t l).liveCheck = decide (t - l > i) := by
  unfold serveHealth
  by_cases h : t - l > i
  · rcases hE : handleHTTPException hf (errOf (g hf)) with _ | r <;> simp [h, hE]
  · simp [h]

/-- Health handler, successful live check: updates the timestamp, answers OK. -/
theorem serveHealth_ok (i : Int) (hf : String) (g : String → Except GoErr String)
    (t l : Int) (b : String) (hg : g hf = .ok b) (h : t - l > i) :
    serveHealth i hf g t l = ⟨⟨200, none, "OK"⟩, t, true⟩ := by
  unfold serveHealth
  rw [if_pos h, hg]
  rfl

/-- Health handler, failed live check: writes the translated failure and
leaves the timestamp unchanged. -/
theorem serveHealth_err (i : Int) (hf : String) (g : String → Except GoErr String)
    (t l : Int) (e : GoErr) (r : Response) (hg : g hf = .error e)
    (hr : handleHTTPException hf (some e) = some r) (h : t - l > i) :
    serveHealth i hf g t l = ⟨r, l, true⟩ := by
  unfold serveHealth
  rw [if_pos h, hg]
  simp only [errOf, hr]

/-- Health handler, interval not elapsed: immediate OK, no check. -/
theorem serveHealth_skip (i : Int) (hf : String) (g : String → Except GoErr String)
    (t l : Int) (h : ¬ t - l > i) :
    serveHealth i hf g t l = ⟨⟨200, none, "OK"⟩, l, false⟩ := by
  unfold serveHealth
  rw [if_neg h]

/-- On a failed live check the health response is exactly the translated
failure. -/
theorem serveHealth_err_response (i : Int) (hf : String)
    (g : String → Except GoErr String) (t l : Int) (e : GoErr)
    (hg : g hf = .error e) (h : t - l > i) :
    some (serveHealth i hf g t l).response = handleHTTPException hf (some e) := by
  have hsome := handleHTTPException_isSome hf e
  rcases hE : handleHTTPException hf (some e) with _ | r
  · rw [hE] at hsome; cases hsome
  · rw [serveHealth_err i hf g t l e r hg hE h]

/-! ### Claims -/

/-- C3: the error translator maps a store failure with provider code
`NoSuchKey` (the NotFound kind) to 404 with body
`Path '<path>' not found: <provider message>`; any other store failure to
500 with body `An internal error occurred: <code> = <message>`, with a
` (Cause: <cause>)` suffix exactly when an underlying cause is present; and
a generic non-store failure to 500 with body
`An internal error occurred: <message>`. -/
theorem handleHTTPException_translation
    (path code message notFoundMsg genericMsg cause : String)
    (orig : Option String) (hcode : code ≠ "NoSuchKey") :
    handleHTTPException path (some (.awsError "NoSuchKey" notFoundMsg orig)) =
      some ⟨404, none, "Path '" ++ path ++ "' not found: " ++ notFoundMsg⟩
  ∧ handleHTTPException path (some (.awsError code message (some cause))) =
      some ⟨500, none,
        "An internal error occurred: " ++ code ++ " = " ++ message
          ++ (" (Cause: " ++ cause ++ ")")⟩
  ∧ handleHTTPException path (some (.awsError code message none)) =
      some ⟨500, none, "An internal error occurred: " ++ code ++ " = " ++ message⟩
  ∧ handleHTTPException path (some (.goError genericMsg)) =
      some ⟨500, none, "An internal error occurred: " ++ genericMsg⟩ := by
  refine ⟨by simp [handleHTTPException], ?_, ?_, rfl⟩
  · simp only [handleHTTPException]
    rw [if_neg hcode]
  · simp only [handleHTTPException]
    rw [if_neg hcode]
    simp

/-- Witness for C3 at concrete inputs. -/
theorem handleHTTPException_translation_witness :
    ("AccessDenied" : String) ≠ "NoSuchKey"
  ∧ (handleHTTPException "a/b" (some (.awsError "NoSuchKey" "no such key" none)) =
      some ⟨404, none, "Path '" ++ "a/b" ++ "' not found: " ++ "no such key"⟩
    ∧ handleHTTPException "a/b" (some (.awsError "AccessDenied" "denied" (some "io down"))) =
      some ⟨500, none,
        "An internal error occurred: " ++ "AccessDenied" ++ " = " ++ "denied"
          ++ (" (Cause: " ++ "io down" ++ ")")⟩
    ∧ handleHTTPException "a/b" (some (.awsError "AccessDenied" "denied" none)) =
      some ⟨500, none, "An internal error occurred: " ++ "AccessDenied" ++ " = " ++ "denied"⟩
    ∧ handleHTTPException "a/b" (some (.goError "unexpected EOF")) =
      some ⟨500, none, "An internal error occurred: " ++ "unexpected EOF"⟩) :=
  ⟨by decide, handleHTTPException_translation "a/b" "AccessDenied" "denied"
    "no such key" "unexpected EOF" "io down" none (by decide)⟩

/-- C8: the very first health probe after startup (the global timestamp is
reset to zero by `main`) performs a live store check, since `now - 0` exceeds
the interval for any probe time greater than the interval — true of any
reasonable interval at any realistic Unix clock reading. -/
theorem first_probe_always_checks (i : Int) (hf : String)
    (g : String → Except GoErr String) (t : Int) (ht : t > i) :
    (serveHealth i hf g t initialLastHealthCheckTime).liveCheck = true := by
  rw [serveHealth_liveCheck_eq]
  simp only [initialLastHealthCheckTime, decide_eq_true_eq]
  omega

/-- Witness for C8: default 120 s interval, probe at t = 121. -/
theorem first_probe_always_checks_witness :
    (121 : Int) > 120
  ∧ (serveHealth 120 ".rest-s3-proxy" (fun _ => .ok "") 121
      initialLastHealthCheckTime).liveCheck = true :=
  ⟨by decide, first_probe_always_checks 120 ".rest-s3-proxy" (fun _ => .ok "") 121 (by decide)⟩

/-- C5 counterexample: a health probe whose live store check fails with
provider code `NoSuchKey` (health file absent from the bucket) is answered
with status 404, not 500. -/
theorem serveHealth_notFound_status_404 :
    (serveHealth 120 ".rest-s3-proxy"
        (fun _ => .error (.awsError "NoSuchKey" "The specified key does not exist." none))
        1000 0).response.status = 404
  ∧ (serveHealth 120 ".rest-s3-proxy"
        (fun _ => .error (.awsError "NoSuchKey" "The specified key does not exist." none))
        1000 0).response.status ≠ 500 := by
  decide

/-- C5 (amended): when the live health check fails, the status written is the
error translator's status for that failure: 404 when the provider code is
`NoSuchKey`, 500 for any other store failure, and 500 for a generic
failure. -/
theorem serveHealth_failure_status (i : Int) (hf : String)
    (ga gb : String → Except GoErr String) (t l : Int)
    (code msg m : String) (orig : Option String)
    (hc : t - l > i)
    (hga : ga hf = .error (.awsError code msg orig))
    (hgb : gb hf = .error (.goError m)) :
    (serveHealth i hf ga t l).response.status =
      (if code = "NoSuchKey" then 404 else 500)
  ∧ (serveHealth i hf gb t l).response.status = 500 := by
  constructor
  · have hsome := serveHealth_err_response i hf ga t l _ hga hc
    simp only [handleHTTPException] at hsome
    by_cases hcode : code = "NoSuchKey"
    · rw [if_pos hcode] at hsome
      rw [if_pos hcode]
      simp only [Option.some.injEq] at hsome
      rw [hsome]
    · rw [if_neg hcode] at hsome
      rw [if_neg hcode]
      simp only [Option.some.injEq] at hsome
      rw [hsome]
  · have hsome := serveHealth_err_response i hf gb t l _ hgb hc
    simp only [handleHTTPException, Option.some.injEq] at hsome
    rw [hsome]

/-- Witness for C5's amended statement at concrete inputs. -/
theorem serveHealth_failure_status_witness :
    ((200 : Int) - 0 > 120
      ∧ (fun _ : String => (.error (.awsError "AccessDenied" "denied" none) :
            Except GoErr String)) ".rest-s3-proxy" =
          .error (.awsError "AccessDenied" "denied" none)
      ∧ (fun _ : String => (.error (.goError "conn reset") :
            Except GoErr String)) ".rest-s3-proxy" = .error (.goError "conn reset"))
  ∧ ((serveHealth 120 ".rest-s3-proxy"
        (fun _ => .error (.awsError "AccessDenied" "denied" none)) 200 0).response.status =
      (if "AccessDenied" = "NoSuchKey" then 404 else 500)
    ∧ (serveHealth 120 ".rest-s3-proxy"
        (fun _ => .error (.goError "conn reset")) 200 0).response.status = 500) :=
  ⟨⟨by decide, rfl, rfl⟩,
    serveHealth_failure_status 120 ".rest-s3-proxy"
      (fun _ => .error (.awsError "AccessDenied" "denied" none))
      (fun _ => .error (.goError "conn reset")) 200 0
      "AccessDenied" "denied" "conn reset" none (by decide) rfl rfl⟩

/-- C1: for an arbitrary backend `g` — healthy or failing, since only
elapsed time gates re-checking — a live store check is issued iff
`now - last_check_time > cache_interval` (strict), and when the interval has
not elapsed the handler writes OK immediately with no store call; in the
concrete scenario (interval 120 s, a store `gs` healthy at the health file,
startup at any realistic Unix time `T`, so `T > 120`) probes at `T`, `T+60`
and `T+121` each return 200 "OK" while performing one, zero and one live
check respectively. -/
theorem serveHealth_cache_policy (i : Int) (hf : String)
    (g gs : String → Except GoErr String) (t l T : Int) (b : String)
    (hg : gs hf = .ok b) (hT : T > 120) :
    ((serveHealth i hf g t l).liveCheck = true ↔ t - l > i)
  ∧ (¬ t - l > i → serveHealth i hf g t l = ⟨⟨200, none, "OK"⟩, l, false⟩)
  ∧ serveHealth 120 hf gs T 0 = ⟨⟨200, none, "OK"⟩, T, true⟩
  ∧ serveHealth 120 hf gs (T + 60) T = ⟨⟨200, none, "OK"⟩, T, false⟩
  ∧ serveHealth 120 hf gs (T + 121) T = ⟨⟨200, none, "OK"⟩, T + 121, true⟩ := by
  refine ⟨?_, fun h => serveHealth_skip _ _ _ _ _ h, ?_, ?_, ?_⟩
  · rw [serveHealth_liveCheck_eq]
    simp only [decide_eq_true_eq]
  · exact serveHealth_ok _ _ _ _ _ b hg (by omega)
  · exact serveHealth_skip _ _ _ _ _ (by omega)
  · exact serveHealth_ok _ _ _ _ _ b hg (by omega)

/-- Witness for C1 at concrete inputs: the universal clauses at a FAILING
backend (store denying access) probed inside the window (t = 60, l = 0), the
scenario at a healthy backend with T = 1000. -/
theorem serveHealth_cache_policy_witness :
    ((fun _ : String => (.ok "body" : Except GoErr String)) ".rest-s3-proxy" = .ok "body"
      ∧ (1000 : Int) > 120)
  ∧ (((serveHealth 120 ".rest-s3-proxy"
        (fun _ => .error (.awsError "AccessDenied" "denied" none)) 60 0).liveCheck = true ↔
        (60 : Int) - 0 > 120)
    ∧ (¬ (60 : Int) - 0 > 120 →
        serveHealth 120 ".rest-s3-proxy"
          (fun _ => .error (.awsError "AccessDenied" "denied" none)) 60 0 =
          ⟨⟨200, none, "OK"⟩, 0, false⟩)
    ∧ serveHealth 120 ".rest-s3-proxy" (fun _ => .ok "body") 1000 0 =
        ⟨⟨200, none, "OK"⟩, 1000, true⟩
    ∧ serveHealth 120 ".rest-s3-proxy" (fun _ => .ok "body") (1000 + 60) 1000 =
        ⟨⟨200, none, "OK"⟩, 1000, false⟩
    ∧ serveHealth 120 ".rest-s3-proxy" (fun _ => .ok "body") (1000 + 121) 1000 =
        ⟨⟨200, none, "OK"⟩, 1000 + 121, true⟩) :=
  ⟨⟨rfl, by decide⟩,
    serveHealth_cache_policy 120 ".rest-s3-proxy"
      (fun _ => .error (.awsError "AccessDenied" "denied" none))
      (fun _ => .ok "body") 60 0 1000 "body" rfl (by decide)⟩

/-- C2: when the live health check fails, `lastHealthCheckTime` is left
unchanged, the response is exactly the translated failure, the body "OK" is
not written, and the next probe — even at the same instant — re-attempts a
live check. -/
theorem serveHealth_failure_no_cache (i : Int) (hf : String)
    (g : String → Except GoErr String) (t l : Int) (e : GoErr)
    (hg : g hf = .error e) (hc : t - l > i) :
    (serveHealth i hf g t l).lastHealthCheckTime = l
  ∧ some (serveHealth i hf g t l).response = handleHTTPException hf (some e)
  ∧ (serveHealth i hf g t l).response.body ≠ "OK"
  ∧ (serveHealth i hf g t
        ((serveHealth i hf g t l).lastHealthCheckTime)).liveCheck = true := by
  have hsome := handleHTTPException_isSome hf e
  rcases hE : handleHTTPException hf (some e) with _ | r
  · rw [hE] at hsome; cases hsome
  · have hserve := serveHealth_err i hf g t l e r hg hE hc
    rw [hserve]
    refine ⟨rfl, rfl, handleHTTPException_body_ne_OK hf e r hE, ?_⟩
    rw [serveHealth_liveCheck_eq]
    simpa using hc

/-- Witness for C2 at concrete inputs. -/
theorem serveHealth_failure_no_cache_witness :
    ((fun _ : String => (.error (.awsError "AccessDenied" "denied" none) :
          Except GoErr String)) ".rest-s3-proxy" =
        .error (.awsError "AccessDenied" "denied" none)
      ∧ (200 : Int) - 0 > 120)
  ∧ ((serveHealth 120 ".rest-s3-proxy"
        (fun _ => .error (.awsError "AccessDenied" "denied" none)) 200 0).lastHealthCheckTime = 0
    ∧ some (serveHealth 120 ".rest-s3-proxy"
        (fun _ => .error (.awsError "AccessDenied" "denied" none)) 200 0).response =
        handleHTTPException ".rest-s3-proxy" (some (.awsError "AccessDenied" "denied" none))
    ∧ (serveHealth 120 ".rest-s3-proxy"
        (fun _ => .error (.awsError "AccessDenied" "denied" none)) 200 0).response.body ≠ "OK"
    ∧ (serveHealth 120 ".rest-s3-proxy"
        (fun _ => .error (.awsError "AccessDenied" "denied" none)) 200
        ((serveHealth 120 ".rest-s3-proxy"
          (fun _ => .error (.awsError "AccessDenied" "denied" none)) 200 0).lastHealthCheckTime)).liveCheck
        = true) :=
  ⟨⟨rfl, by decide⟩,
    serveHealth_failure_no_cache 120 ".rest-s3-proxy"
      (fun _ => .error (.awsError "AccessDenied" "denied" none)) 200 0
      (.awsError "AccessDenied" "denied" none) rfl (by decide)⟩

/-- Reading a key just written to the ideal store returns the bytes
written. -/
theorem s3GetObject_put_same (st : Store) (key body : String) :
    s3GetObject (s3PutObject st key body) key = .ok body := by
  simp [s3GetObject, s3PutObject]

/-- Router, PUT with a non-empty non-health key and a readable body,
against the ideal store: unfolded outcome. -/
theorem serveS3File_put_ok (i : Int) (hf : String) (urlPath body : String)
    (t : Int) (s : ProxyState)
    (hne : ¬ urlPath.drop 1 = "") (hnh : ¬ urlPath.drop 1 = "healthz") :
    serveS3File i hf "PUT" urlPath (.ok body) t s =
      ⟨⟨201, some ("/" ++ urlPath.drop 1), ""⟩,
        ⟨s3PutObject s.store (urlPath.drop 1) body, s.lastHealthCheckTime⟩, 1⟩ := by
  simp only [serveS3File]
  rw [if_neg hne, if_neg hnh]
  rfl

/-- Router, GET with a non-empty non-health key: delegates to the
object-read handler. -/
theorem serveS3File_get (i : Int) (hf : String) (urlPath : String)
    (rb : Except GoErr String) (t : Int) (s : ProxyState)
    (hne : ¬ urlPath.drop 1 = "") (hnh : ¬ urlPath.drop 1 = "healthz") :
    serveS3File i hf "GET" urlPath rb t s =
      ⟨serveGetS3File (s3GetObject s.store) (urlPath.drop 1), s, 1⟩ := by
  simp only [serveS3File]
  rw [if_neg hne, if_neg hnh]
  rfl

/-- Router, DELETE with a non-empty non-health key, against the ideal
store: unfolded outcome. -/
theorem serveS3File_delete (i : Int) (hf : String) (urlPath : String)
    (rb : Except GoErr String) (t : Int) (s : ProxyState)
    (hne : ¬ urlPath.drop 1 = "") (hnh : ¬ urlPath.drop 1 = "healthz") :
    serveS3File i hf "DELETE" urlPath rb t s =
      ⟨⟨204, none, ""⟩,
        ⟨s3DeleteObject s.store (urlPath.drop 1), s.lastHealthCheckTime⟩, 1⟩ := by
  simp only [serveS3File]
  rw [if_neg hne, if_neg hnh]
  rfl

/-- C4: the router strips the leading path separator; an empty key is
answered 400 "Path must be provided" with no store call for any method; the
literal key `healthz` delegates GET to the health prober and answers 405 to
every other method; any other key dispatches GET/PUT/DELETE to the
read/write/delete handlers and answers 405 `Method <M> not supported` to any
other method with no store call. -/
theorem serveS3File_routing (i : Int) (hf : String) (method urlPath key : String)
    (rb : Except GoErr String) (t : Int) (s : ProxyState)
    (hkey : urlPath.drop 1 = key) :
    (key = "" → serveS3File i hf method urlPath rb t s =
        ⟨⟨400, none, "Path must be provided"⟩, s, 0⟩)
  ∧ (key = "healthz" → method = "GET" →
      serveS3File i hf method urlPath rb t s =
        (let h := serveHealth i hf (s3GetObject s.store) t s.lastHealthCheckTime
         ⟨h.response, ⟨s.store, h.lastHealthCheckTime⟩, if h.liveCheck then 1 else 0⟩))
  ∧ (key = "healthz" → method ≠ "GET" →
      serveS3File i hf method urlPath rb t s =
        ⟨⟨405, none, "/healthz is restricted to GET requests"⟩, s, 0⟩)
  ∧ (key ≠ "" → key ≠ "healthz" →
      (method = "GET" → serveS3File i hf method urlPath rb t s =
          ⟨serveGetS3File (s3GetObject s.store) key, s, 1⟩)
    ∧ (method = "PUT" → serveS3File i hf method urlPath rb t s =
          ⟨(servePutS3File s.store none key rb).response,
            ⟨(servePutS3File s.store none key rb).store, s.lastHealthCheckTime⟩,
            (servePutS3File s.store none key rb).storeCalls⟩)
    ∧ (method = "DELETE" → serveS3File i hf method urlPath rb t s =
          ⟨(serveDeleteS3File s.store none key).response,
            ⟨(serveDeleteS3File s.store none key).store, s.lastHealthCheckTime⟩,
            (serveDeleteS3File s.store none key).storeCalls⟩)
    ∧ (method ≠ "GET" → method ≠ "PUT" → method ≠ "DELETE" →
          serveS3File i hf method urlPath rb t s =
            ⟨⟨405, none, "Method " ++ method ++ " not supported"⟩, s, 0⟩)) := by
  subst hkey
  refine ⟨fun h0 => ?_, fun hh hm => ?_, fun hh hm => ?_,
    fun h0 hh => ⟨fun hm => ?_, fun hm => ?_, fun hm => ?_, fun hm1 hm2 hm3 => ?_⟩⟩
  · simp only [serveS3File]
    rw [if_pos h0]
  · simp only [serveS3File]
    rw [if_neg (show ¬ urlPath.drop 1 = "" by rw [hh]; decide), if_pos hh, if_pos hm]
  · simp only [serveS3File]
    rw [if_neg (show ¬ urlPath.drop 1 = "" by rw [hh]; decide), if_pos hh, if_neg hm]
  · subst hm
    simp only [serveS3File]
    rw [if_neg h0, if_neg hh]
    rfl
  · subst hm
    simp only [serveS3File]
    rw [if_neg h0, if_neg hh, if_neg (show ¬ ("PUT" : String) = "GET" by decide)]
    rfl
  · subst hm
    simp only [serveS3File]
    rw [if_neg h0, if_neg hh, if_neg (show ¬ ("DELETE" : String) = "GET" by decide),
      if_neg (show ¬ ("DELETE" : String) = "PUT" by decide)]
    rfl
  · simp only [serveS3File]
    rw [if_neg h0, if_neg hh, if_neg hm1, if_neg hm2, if_neg hm3]

/-- Witness for C4 with a POST to `/x` (and the other conjuncts at the same
instantiation). -/
theorem serveS3File_routing_witness :
    ("/x").drop 1 = "x"
  ∧ (("x" = "" → serveS3File 120 ".rest-s3-proxy" "POST" "/x" (.ok "") 0
        ⟨fun _ => none, 0⟩ = ⟨⟨400, none, "Path must be provided"⟩, ⟨fun _ => none, 0⟩, 0⟩)
    ∧ ("x" = "healthz" → "POST" = "GET" →
        serveS3File 120 ".rest-s3-proxy" "POST" "/x" (.ok "") 0 ⟨fun _ => none, 0⟩ =
          (let h := serveHealth 120 ".rest-s3-proxy"
              (s3GetObject (ProxyState.mk (fun _ => none) 0).store) 0
              (ProxyState.mk (fun _ => none) 0).lastHealthCheckTime
           ⟨h.response, ⟨(ProxyState.mk (fun _ => none) 0).store, h.lastHealthCheckTime⟩,
             if h.liveCheck then 1 else 0⟩))
    ∧ ("x" = "healthz" → "POST" ≠ "GET" →
        serveS3File 120 ".rest-s3-proxy" "POST" "/x" (.ok "") 0 ⟨fun _ => none, 0⟩ =
          ⟨⟨405, none, "/healthz is restricted to GET requests"⟩, ⟨fun _ => none, 0⟩, 0⟩)
    ∧ ("x" ≠ "" → "x" ≠ "healthz" →
        ("POST" = "GET" → serveS3File 120 ".rest-s3-proxy" "POST" "/x" (.ok "") 0
            ⟨fun _ => none, 0⟩ =
            ⟨serveGetS3File (s3GetObject (ProxyState.mk (fun _ => none) 0).store) "x",
              ⟨fun _ => none, 0⟩, 1⟩)
      ∧ ("POST" = "PUT" → serveS3File 120 ".rest-s3-proxy" "POST" "/x" (.ok "") 0
            ⟨fun _ => none, 0⟩ =
            ⟨(servePutS3File (ProxyState.mk (fun _ => none) 0).store none "x" (.ok "")).response,
              ⟨(servePutS3File (ProxyState.mk (fun _ => none) 0).store none "x" (.ok "")).store,
                (ProxyState.mk (fun _ => none) 0).lastHealthCheckTime⟩,
              (servePutS3File (ProxyState.mk (fun _ => none) 0).store none "x" (.ok "")).storeCalls⟩)
      ∧ ("POST" = "DELETE" → serveS3File 120 ".rest-s3-proxy" "POST" "/x" (.ok "") 0
            ⟨fun _ => none, 0⟩ =
            ⟨(serveDeleteS3File (ProxyState.mk (fun _ => none) 0).store none "x").response,
              ⟨(serveDeleteS3File (ProxyState.mk (fun _ => none) 0).store none "x").store,
                (ProxyState.mk (fun _ => none) 0).lastHealthCheckTime⟩,
              (serveDeleteS3File (ProxyState.mk (fun _ => none) 0).store none "x").storeCalls⟩)
      ∧ ("POST" ≠ "GET" → "POST" ≠ "PUT" → "POST" ≠ "DELETE" →
            serveS3File 120 ".rest-s3-proxy" "POST" "/x" (.ok "") 0 ⟨fun _ => none, 0⟩ =
              ⟨⟨405, none, "Method " ++ "POST" ++ " not supported"⟩, ⟨fun _ => none, 0⟩, 0⟩))) :=
  ⟨by decide,
    serveS3File_routing 120 ".rest-s3-proxy" "POST" "/x" "x" (.ok "") 0
      ⟨fun _ => none, 0⟩ (by decide)⟩

/-- C6: for a non-empty key, a successful PUT answers 201 with a `Location`
header `/<key>` — also when the key already held an object, which is then
overwritten — and a successful DELETE answers 204. -/
theorem put_delete_success (i : Int) (hf : String) (urlPath key body old : String)
    (rb : Except GoErr String) (t : Int) (s : ProxyState)
    (hkey : urlPath.drop 1 = key) (hne : key ≠ "") (hnh : key ≠ "healthz") :
    serveS3File i hf "PUT" urlPath (.ok body) t s =
      ⟨⟨201, some ("/" ++ key), ""⟩,
        ⟨s3PutObject s.store key body, s.lastHealthCheckTime⟩, 1⟩
  ∧ (s.store key = some old →
      (serveS3File i hf "PUT" urlPath (.ok body) t s).response =
        ⟨201, some ("/" ++ key), ""⟩
      ∧ (serveS3File i hf "PUT" urlPath (.ok body) t s).state.store key = some body)
  ∧ serveS3File i hf "DELETE" urlPath rb t s =
      ⟨⟨204, none, ""⟩,
        ⟨s3DeleteObject s.store key, s.lastHealthCheckTime⟩, 1⟩ := by
  subst hkey
  have hput := serveS3File_put_ok i hf urlPath body t s hne hnh
  refine ⟨hput, fun _ => ⟨by rw [hput], ?_⟩, serveS3File_delete i hf urlPath rb t s hne hnh⟩
  rw [hput]
  simp [s3PutObject]

/-- Witness for C6: key `x`, body `payload`, a store already holding `old`
under `x`. -/
theorem put_delete_success_witness :
    (("/x").drop 1 = "x" ∧ ("x" : String) ≠ "" ∧ ("x" : String) ≠ "healthz")
  ∧ (serveS3File 120 ".rest-s3-proxy" "PUT" "/x" (.ok "payload") 0
        ⟨fun _ => some "old", 0⟩ =
      ⟨⟨201, some ("/" ++ "x"), ""⟩,
        ⟨s3PutObject (ProxyState.mk (fun _ => some "old") 0).store "x" "payload", 0⟩, 1⟩
    ∧ ((ProxyState.mk (fun _ => some "old") 0).store "x" = some "old" →
        (serveS3File 120 ".rest-s3-proxy" "PUT" "/x" (.ok "payload") 0
            ⟨fun _ => some "old", 0⟩).response = ⟨201, some ("/" ++ "x"), ""⟩
        ∧ (serveS3File 120 ".rest-s3-proxy" "PUT" "/x" (.ok "payload") 0
            ⟨fun _ => some "old", 0⟩).state.store "x" = some "payload")
    ∧ serveS3File 120 ".rest-s3-proxy" "DELETE" "/x" (.ok "") 0
        ⟨fun _ => some "old", 0⟩ =
      ⟨⟨204, none, ""⟩,
        ⟨s3DeleteObject (ProxyState.mk (fun _ => some "old") 0).store "x", 0⟩, 1⟩) :=
  ⟨⟨by decide, by decide, by decide⟩,
    put_delete_success 120 ".rest-s3-proxy" "/x" "x" "payload" "old" (.ok "") 0
      ⟨fun _ => some "old", 0⟩ (by decide) (by decide) (by decide)⟩

/-- C7: a successful PUT of a body under a non-empty key followed by a GET of
the same key (no intervening write) answers 200 with exactly the uploaded
bytes. -/
theorem put_then_get_roundtrip (i : Int) (hf : String) (urlPath key body : String)
    (rb : Except GoErr String) (t1 t2 : Int) (s : ProxyState)
    (hkey : urlPath.drop 1 = key) (hne : key ≠ "") (hnh : key ≠ "healthz") :
    (serveS3File i hf "PUT" urlPath (.ok body) t1 s).response.status = 201
  ∧ (serveS3File i hf "GET" urlPath rb t2
        (serveS3File i hf "PUT" urlPath (.ok body) t1 s).state).response =
      ⟨200, none, body⟩ := by
  subst hkey
  have hput := serveS3File_put_ok i hf urlPath body t1 s hne hnh
  rw [hput]
  refine ⟨rfl, ?_⟩
  rw [serveS3File_get i hf urlPath rb t2 _ hne hnh]
  show serveGetS3File (s3GetObject (s3PutObject s.store (urlPath.drop 1) body))
    (urlPath.drop 1) = _
  simp only [serveGetS3File, s3GetObject_put_same, errOf, handleHTTPException, bodyOf]

/-- Witness for C7: key `x`, body `payload`, empty initial store. -/
theorem put_then_get_roundtrip_witness :
    (("/x").drop 1 = "x" ∧ ("x" : String) ≠ "" ∧ ("x" : String) ≠ "healthz")
  ∧ ((serveS3File 120 ".rest-s3-proxy" "PUT" "/x" (.ok "payload") 0
        ⟨fun _ => none, 0⟩).response.status = 201
    ∧ (serveS3File 120 ".rest-s3-proxy" "GET" "/x" (.ok "") 5
        (serveS3File 120 ".rest-s3-proxy" "PUT" "/x" (.ok "payload") 0
          ⟨fun _ => none, 0⟩).state).response = ⟨200, none, "payload"⟩) :=
  ⟨⟨by decide, by decide, by decide⟩,
    put_then_get_roundtrip 120 ".rest-s3-proxy" "/x" "x" "payload" (.ok "") 0 5
      ⟨fun _ => none, 0⟩ (by decide) (by decide) (by decide)⟩

/-- C10: a PUT whose inbound body cannot be read answers 500 with the generic
internal-error body, issues no store call at all, and leaves the proxy state
— in particular the stored object under that key — unchanged. -/
theorem put_body_read_failure (i : Int) (hf : String) (urlPath key msg : String)
    (t : Int) (s : ProxyState)
    (hkey : urlPath.drop 1 = key) (hne : key ≠ "") (hnh : key ≠ "healthz") :
    serveS3File i hf "PUT" urlPath (.error (.goError msg)) t s =
      ⟨⟨500, none, "An internal error occurred: " ++ msg⟩, s, 0⟩ := by
  subst hkey
  simp only [serveS3File]
  rw [if_neg hne, if_neg hnh]
  rfl

/-- Witness for C10: key `x`, unreadable body. -/
theorem put_body_read_failure_witness :
    (("/x").drop 1 = "x" ∧ ("x" : String) ≠ "" ∧ ("x" : String) ≠ "healthz")
  ∧ serveS3File 120 ".rest-s3-proxy" "PUT" "/x" (.error (.goError "unexpected EOF")) 0
      ⟨fun _ => some "old", 7⟩ =
    ⟨⟨500, none, "An internal error occurred: " ++ "unexpected EOF"⟩,
      ⟨fun _ => some "old", 7⟩, 0⟩ :=
  ⟨⟨by decide, by decide, by decide⟩,
    put_body_read_failure 120 ".rest-s3-proxy" "/x" "x" "unexpected EOF" 0
      ⟨fun _ => some "old", 7⟩ (by decide) (by decide) (by decide)⟩
